import Mathlib

/-!
Verification of the judge-controller submission-processing pipeline.

The development shallowly embeds the Rust sources of the repository
(`src/controller.rs`, `src/session.rs`, `src/util.rs`, `src/cli.rs`,
`src/api.rs`) into Lean:

* filesystem paths are component lists (`List String`), mirroring
  `PathBuf::join` as list append;
* URLs are modelled by their path-segment lists; `Url::join` with a
  relative path reference is the RFC 3986 merge (drop the last segment
  of the base, append the reference's segments);
* clock instants are integers counting seconds (`chrono::DateTime<Utc>`
  ordered by `<`), `Duration::minutes 5` is the constant 300;
* fallible operations (`?` propagation and `unwrap` panics) return
  `Except Err`;
* the side-effecting body of `process_submission` is embedded as the
  list of filesystem / network / subprocess actions it performs, in
  program order.
-/

namespace JudgeController

/-- Error outcomes of the embedded pipeline: `cacheReadFailed` models a fallible
filesystem read propagated with `?` (`std::fs::read_to_string(...)?` in
`controller.rs:242`), `panicMissingVerdict` models the `unwrap` panic when the
verdict artifact cannot be read (`controller.rs:318`), `panicMalformedVerdict`
the `unwrap` panic when its JSON cannot be parsed (`controller.rs:318`). -/
inductive Err where
  | cacheReadFailed
  | panicMissingVerdict
  | panicMalformedVerdict
deriving DecidableEq, Repr

/-- Embedding of `session.rs:16` (also `controller.rs:17`): the token pair
returned by `auth/login` and `auth/refresh`, carrying both an access token and
a refresh token. -/
structure JWTTokenPair where
  access_token : String
  refresh_token : String
deriving DecidableEq, Repr

/-- Embedding of `Session` (`session.rs:8`, also `controller.rs:29`): the base
URL is kept as its path-segment list, the expiry as an integer timestamp. -/
structure Session where
  base_url : List String
  expiry : Int
  access_token : String
  refresh_token : String
deriving DecidableEq, Repr

/-- Splitting of a character list on the `/` separator, accumulating the
current segment in reverse; structural counterpart of `String.splitOn "/"`
(and of splitting a path into components), written by recursion on the
character list so that it evaluates by `rfl`. -/
def splitSlash : List Char → List Char → List String
  | [], acc => [String.mk acc.reverse]
  | c :: rest, acc =>
    if c = '/' then String.mk acc.reverse :: splitSlash rest []
    else splitSlash rest (c :: acc)

/-- Segments of a string split on `/`: `"a/b/"` yields `["a", "b", ""]`,
the trailing empty segment recording the trailing slash. -/
def slashSegments (s : String) : List String :=
  splitSlash s.data []

/-- Embedding of one `Url::join` step (`url` crate) for the relative path
references this program passes: per RFC 3986 the last segment of the base path
is dropped and the reference's segments are appended.  A fragment with a
trailing slash, such as `"submission/"`, contributes a final empty segment, so
the result again ends in a slash. -/
def urlJoin (base : List String) (fragment : String) : List String :=
  base.dropLast ++ slashSegments fragment

/-- Embedding of `Session::resolve` (`session.rs:37`, also `controller.rs:51`):
the fragments are folded over the base URL with `Url::join`. -/
def Session.resolve (s : Session) (url_fragment : List String) : List String :=
  url_fragment.foldl urlJoin s.base_url

/-- Embedding of `Session::refresh` (`session.rs:80`, also `controller.rs:89`)
given the server's response `resp` for the `auth/refresh` call: the access
token is replaced by the response's access token and the expiry is recomputed
by decoding that token's `exp` claim (`recalc_expiry`, `session.rs:74`), the
decoder being passed explicitly.  No other field is assigned. -/
def Session.refreshWith (s : Session) (resp : JWTTokenPair)
    (decodeExp : String → Int) : Session :=
  { s with
    access_token := resp.access_token
    expiry := decodeExp resp.access_token }

/-- Embedding of `Session::get_access_token` (`session.rs:101`, also
`controller.rs:108`): if `now + 5 minutes > expiry` the session is refreshed
first, and the (possibly refreshed) session's access token is returned. -/
def Session.get_access_token (s : Session) (now : Int) (resp : JWTTokenPair)
    (decodeExp : String → Int) : Session × String :=
  let s' := if now + 5 * 60 > s.expiry then s.refreshWith resp decodeExp else s
  (s', s'.access_token)

/-- Embedding of the CLI options consumed by `process_submission`
(`cli.rs:7`): `folder` and `temp` are directory paths kept as component
lists; `socket` is the optional TCP socket option (`cli.rs:59`), and
`checker_language` the checker-language option (`cli.rs:43`), both of which
`cli.rs` declares. -/
structure Opts where
  folder : List String
  temp : List String
  judge : String
  sandboxes : Int
  checker_language : String
  language_definition : String
  socket : Option String
deriving DecidableEq, Repr

/-- Embedding of `PartialSubmission` (`api.rs:10`, also `controller.rs:118`). -/
structure PartialSubmission where
  id : Int
  problem_slug : String
  language : String
  source_code : String
deriving DecidableEq, Repr

/-- Embedding of `ProblemMetadata` (`controller.rs:126`): the `last_update`
RFC 3339 string is kept in already-parsed form as an integer timestamp (its
`DateTime::from_str` parse at `controller.rs:244` is modelled as succeeding on
the server-supplied value). -/
structure ProblemMetadata where
  problem_type : String
  last_update : Int
deriving DecidableEq, Repr

/-- Modelled from the spec: the verdict structure produced by the external
grading subprocess (`judge_definitions::JudgeOutput`, a crate whose source is
not part of this repository) — "Verdict — {verdict_code, compile_message,
time, memory, per_testcase_results}"; per-testcase results are kept as an
opaque list of strings. -/
structure JudgeOutput where
  verdict : String
  message : String
  time : Int
  memory : Int
  testcases : List String
deriving DecidableEq, Repr

/-- Modelled from the spec: the synthetic `SYSTEM_ERROR` verdict the spec says
is substituted when the verdict artifact is absent — "a synthetic
`SYSTEM_ERROR` verdict with zeroed time/memory and empty message".  No such
value is constructed anywhere in the sources under `src/`. -/
def systemErrorVerdict : JudgeOutput :=
  { verdict := "SYSTEM_ERROR", message := "", time := 0, memory := 0,
    testcases := [] }

/-- Content of the verdict artifact file, when it exists: either a valid JSON
verdict or malformed text. -/
inductive VerdictFileContent where
  | valid (v : JudgeOutput)
  | malformed
deriving DecidableEq, Repr

/-- The bundle resources `process_submission` downloads
(`controller.rs:261` through `controller.rs:269`). -/
inductive Resource where
  | metadata
  | checker
  | testlib
  | interactor
  | testcases
deriving DecidableEq, Repr

/-- One observable action of the embedded `process_submission` body, in
program order: filesystem writes and deletions, authenticated resource
downloads (`download_to_file`), archive extraction, the subprocess launch and
the final verdict PUT. -/
inductive PipelineAction where
  | writeFile (path : List String) (content : String)
  | removeDirAll (path : List String)
  | createDirAll (path : List String)
  | fetch (res : Resource) (path : List String)
  | unzipTo (zip : List String) (dest : List String)
  | removeFile (path : List String)
  | spawnJudge (program : String) (args : List String)
  | putVerdict (id : Int) (v : JudgeOutput)
deriving DecidableEq, Repr

/-- Inputs of one `process_submission` run that the environment (server,
filesystem, clock) determines: the CLI options, the fetched submission and
problem, whether the problem's resource folder exists, the parsed content of
its `last-update-time.txt` marker (`none` when the file is absent), the
current time, and the content of the verdict artifact after the subprocess
exits (`none` when the file is absent). -/
structure Env where
  opts : Opts
  submission : PartialSubmission
  problem : ProblemMetadata
  resourceFolderExists : Bool
  marker : Option Int
  now : Int
  verdictFile : Option VerdictFileContent
deriving DecidableEq, Repr

/-- Embedding of `controller.rs:215`: a problem is interactive exactly when
its type string equals `"interactive"`. -/
def isProblemInteractive (e : Env) : Bool :=
  e.problem.problem_type == "interactive"

/-- Embedding of `controller.rs:224`: `folder/<slug>`. -/
def resourceFolder (e : Env) : List String :=
  e.opts.folder ++ [e.submission.problem_slug]

/-- Embedding of `controller.rs:227`: `folder/<slug>/testcases`. -/
def testcasesPath (e : Env) : List String :=
  resourceFolder e ++ ["testcases"]

/-- Embedding of `controller.rs:228`: `folder/<slug>/checker.cpp`. -/
def checkerPath (e : Env) : List String :=
  resourceFolder e ++ ["checker.cpp"]

/-- Embedding of `controller.rs:229`: `folder/<slug>/interactor.cpp`. -/
def interactorPath (e : Env) : List String :=
  resourceFolder e ++ ["interactor.cpp"]

/-- Embedding of `controller.rs:230`: `folder/<slug>/metadata.yml`. -/
def metadataPath (e : Env) : List String :=
  resourceFolder e ++ ["metadata.yml"]

/-- Embedding of `controller.rs:232`: `temp/testcases.zip`. -/
def testcasesZipPath (e : Env) : List String :=
  e.opts.temp ++ ["testcases.zip"]

/-- Embedding of `controller.rs:233`: `temp/testlib.h`. -/
def testlibPath (e : Env) : List String :=
  e.opts.temp ++ ["testlib.h"]

/-- Embedding of `controller.rs:234`: `temp/source`. -/
def sourcePath (e : Env) : List String :=
  e.opts.temp ++ ["source"]

/-- Embedding of `controller.rs:235`: `temp/verdict.json`. -/
def verdictPath (e : Env) : List String :=
  e.opts.temp ++ ["verdict.json"]

/-- Embedding of `controller.rs:242`: the bundle's freshness marker file
`folder/<slug>/last-update-time.txt`. -/
def markerPath (e : Env) : List String :=
  resourceFolder e ++ ["last-update-time.txt"]

/-- Rendering of a path component list as the string `Path::to_str` yields. -/
def pathStr (p : List String) : String :=
  String.intercalate "/" p

/-- Embedding of the `should_download` computation (`controller.rs:239`
through `controller.rs:248`): `true` when the resource folder does not exist;
otherwise `last-update-time.txt` is read — the `?` on
`std::fs::read_to_string` propagates an error when the file is absent — and
the result is `last_download < last_update`. -/
def shouldDownload (e : Env) : Except Err Bool :=
  if !e.resourceFolderExists then .ok true
  else
    match e.marker with
    | none => .error .cacheReadFailed
    | some last_download => .ok (decide (last_download < e.problem.last_update))

/-- Embedding of the stale-bundle refresh block (`controller.rs:250` through
`controller.rs:274`), as the action list it performs in program order: delete
the resource folder if it exists, recreate it, write the freshness marker with
the current time, download metadata, checker and `testlib.h`, download the
interactor only for interactive problems, then download the testcases archive,
extract it and delete the archive. -/
def downloadActions (e : Env) : List PipelineAction :=
  (if e.resourceFolderExists then [.removeDirAll (resourceFolder e)] else [])
    ++ [.createDirAll (resourceFolder e),
        .writeFile (markerPath e) (toString e.now),
        .fetch .metadata (metadataPath e),
        .fetch .checker (checkerPath e),
        .fetch .testlib (testlibPath e)]
    ++ (if isProblemInteractive e then [.fetch .interactor (interactorPath e)]
        else [])
    ++ [.fetch .testcases (testcasesZipPath e),
        .unzipTo (testcasesZipPath e) (testcasesPath e),
        .removeFile (testcasesZipPath e)]

/-- Embedding of the fixed `vec!` literal at `controller.rs:279` through
`controller.rs:301`: the unconditional part of the argument vector passed to
the judge subprocess. -/
def judgeArgsBase (e : Env) : List String :=
  ["--metadata", pathStr (metadataPath e),
   "--language", e.submission.language,
   "--source", pathStr (sourcePath e),
   "--checker", pathStr (checkerPath e),
   "--testcases", pathStr (testcasesPath e),
   "--testlib", pathStr (testlibPath e),
   "--sandboxes", toString e.opts.sandboxes,
   "--languages-definition", e.opts.language_definition,
   "--verdict", pathStr (verdictPath e),
   "--verdict-format", "json",
   "-vvv"]

/-- Embedding of the argument vector built at `controller.rs:279` through
`controller.rs:306`: the fixed `vec!` literal, with `--interactor` and the
interactor path pushed only when the problem is interactive
(`controller.rs:303`). -/
def judgeArgs (e : Env) : List String :=
  if isProblemInteractive e then
    judgeArgsBase e ++ ["--interactor", pathStr (interactorPath e)]
  else judgeArgsBase e

/-- Embedding of the verdict collection at `controller.rs:318`:
`serde_json::from_str(&std::fs::read_to_string(verdict_path).unwrap()).unwrap()`.
When the verdict file is absent, `read_to_string` fails and the first `unwrap`
panics; when its content is malformed JSON the second `unwrap` panics; only a
present, well-formed file yields a verdict. -/
def collectVerdict (file : Option VerdictFileContent) : Except Err JudgeOutput :=
  match file with
  | none => .error .panicMissingVerdict
  | some .malformed => .error .panicMalformedVerdict
  | some (.valid v) => .ok v

/-- Embedding of the body of `process_submission` (`controller.rs:188`
onwards): the first component is the list of actions the run performs before
it terminates, in program order — write the submitted source, refresh the
bundle when stale, spawn the judge subprocess, and on success PUT the
collected verdict to the API — and the second component is `some err` when
the run aborts (an `?`-propagated error or a panic) instead of returning
normally. -/
def processSubmission (e : Env) : List PipelineAction × Option Err :=
  let pre : List PipelineAction :=
    [.writeFile (sourcePath e) e.submission.source_code]
  match shouldDownload e with
  | .error err => (pre, some err)
  | .ok download =>
    let judged := pre ++ (if download then downloadActions e else [])
      ++ [.spawnJudge e.opts.judge (judgeArgs e)]
    match collectVerdict e.verdictFile with
    | .error err => (judged, some err)
    | .ok verdict => (judged ++ [.putVerdict e.submission.id verdict], none)

/-- Embedding of the zip crate's `ZipFile::sanitized_name` (zip 0.5, the
function `unzip` applies to every entry at `util.rs:35` and
`controller.rs:151`): the raw entry name is truncated at the first NUL byte
and only normal path components are kept — root (`/`), parent (`..`) and
current (`.`) components, and the empty components produced by repeated
separators, are all dropped.  The result is the component list of a relative
path that cannot climb out of the extraction directory. -/
def sanitizeFilename (name : String) : List String :=
  let truncated := name.data.takeWhile (fun c => c ≠ Char.ofNat 0)
  (splitSlash truncated []).filter (fun c => c != "" && c != "." && c != "..")

/-- Target path of one archive entry (`controller.rs:152`, `util.rs:36`):
`folder_path.join(file.sanitized_name())`. -/
def entryTarget (folder : List String) (name : String) : List String :=
  folder ++ sanitizeFilename name

/-- All paths `unzip` creates for one entry (`util.rs:38` through
`util.rs:48`): the entry's target itself (directory or file) together with
every intermediate directory `create_dir_all` creates below the extraction
folder, i.e. the target's prefixes extending the folder. -/
def entryWritePaths (folder : List String) (name : String) : List (List String) :=
  (List.range ((sanitizeFilename name).length + 1)).map
    (fun k => folder ++ (sanitizeFilename name).take k)

/-- One step of lexical path resolution: `..` removes the last component,
`.` and empty components are no-ops, and a normal component is appended. -/
def resolveStep (acc : List String) (c : String) : List String :=
  if c = ".." then acc.dropLast
  else if c = "." then acc
  else if c = "" then acc
  else acc ++ [c]

/-- Lexical resolution of a component list: the directory a path actually
denotes once `..`, `.` and empty components are interpreted. -/
def resolvePath (p : List String) : List String :=
  p.foldl resolveStep []

/-- Modelled from the spec: the progress events emitted by the grading
subprocess on the publish/subscribe channel — "`{event_type ∈ {testcase,
submission}, sequence_number}`"; the relay that consumes them is described in
the spec but absent from the sources under `src/` (only its `--socket` CLI
option, `cli.rs:59`, is declared). -/
inductive ProgressEvent where
  | testcase
  | submission
deriving DecidableEq, Repr

/-- Modelled from the spec: the relay's only state — "increments a local
count of judged test cases" and the time of the previous outbound report used
by the 1-second rate limit. -/
structure RelayState where
  count : Nat
  lastSent : Option Int
deriving DecidableEq, Repr

/-- One observable step of the relay: observing an inbound event, or sending
a `{progress, total}` update to the API. -/
inductive RelayStep where
  | observe (e : ProgressEvent)
  | send (progress total : Nat)
deriving DecidableEq, Repr

/-- Modelled from the spec: the relay's send condition — "if the count is
still below the total test-case count for the problem and at least 1 second
has elapsed since the previous outbound report". -/
def relayShouldSend (st : RelayState) (now : Int) (cnt total : Nat) : Bool :=
  decide (cnt < total) &&
    (match st.lastSent with
     | none => true
     | some t => decide (1 ≤ now - t))

/-- Modelled from the spec: the relay's event loop — each inbound event is
parsed as a `ProgressEvent`; a `testcase` event increments the count and may
produce one rate-limited progress update; "On a `submission` event: the relay
terminates", so the remaining inbound events are never consumed. -/
def relayRun (total : Nat) : List (Int × ProgressEvent) → RelayState → List RelayStep
  | [], _ => []
  | (now, ProgressEvent.testcase) :: rest, st =>
    let cnt := st.count + 1
    if relayShouldSend st now cnt total then
      RelayStep.observe ProgressEvent.testcase :: RelayStep.send cnt total ::
        relayRun total rest { count := cnt, lastSent := some now }
    else
      RelayStep.observe ProgressEvent.testcase ::
        relayRun total rest { count := cnt, lastSent := st.lastSent }
  | (_, ProgressEvent.submission) :: _, _ =>
    [RelayStep.observe ProgressEvent.submission]

/-- Modelled from the spec: the phases of one submission's processing around
the relay — "started immediately before the subprocess launch, joined (waited
for termination) immediately after the subprocess exits; the pipeline must
not report the final verdict until the relay has terminated". -/
inductive RelayPipelinePhase where
  | spawnRelay
  | spawnJudge
  | waitJudge
  | joinRelay
  | reportVerdict
deriving DecidableEq, Repr

/-- Modelled from the spec: the order of the phases of one run with a
configured relay. -/
def relayPipelinePhases : List RelayPipelinePhase :=
  [.spawnRelay, .spawnJudge, .waitJudge, .joinRelay, .reportVerdict]

/-- Projection keeping only the download actions of a trace, with their
resources and target paths, in order. -/
def fetchesOf : List PipelineAction → List (Resource × List String)
  | [] => []
  | PipelineAction.fetch r p :: rest => (r, p) :: fetchesOf rest
  | _ :: rest => fetchesOf rest

/-- Test whether an action is a resource download. -/
def isFetch : PipelineAction → Bool
  | PipelineAction.fetch _ _ => true
  | _ => false

/-- Replacement of the fetched problem's type string, leaving every other
input unchanged. -/
def setProblemType (e : Env) (t : String) : Env :=
  { e with problem := { e.problem with problem_type := t } }

/-- Concrete CLI options for witnesses: a progress socket is configured and a
checker language is configured. -/
def sampleOpts : Opts :=
  { folder := ["res"], temp := ["tmp"], judge := "minijudge",
    sandboxes := 4, checker_language := "checkerlang",
    language_definition := "languages.yml",
    socket := some "tcp://127.0.0.1:5555" }

/-- Concrete submission for witnesses. -/
def sampleSubmission : PartialSubmission :=
  { id := 42, problem_slug := "sum-two", language := "cpp17",
    source_code := "submitted source text" }

/-- Concrete verdict artifact content for witnesses. -/
def sampleVerdict : JudgeOutput :=
  { verdict := "AC", message := "", time := 12, memory := 2048,
    testcases := ["AC", "AC"] }

/-- Concrete environment for witnesses: a non-interactive problem whose local
bundle exists with a marker older than the server's `last_update`, and a
valid verdict artifact. -/
def envBase : Env :=
  { opts := sampleOpts, submission := sampleSubmission,
    problem := { problem_type := "normal", last_update := 100 },
    resourceFolderExists := true, marker := some 50, now := 120,
    verdictFile := some (VerdictFileContent.valid sampleVerdict) }

/-- Environment whose verdict artifact is absent after the subprocess exit. -/
def envNoVerdict : Env :=
  { envBase with verdictFile := none }

/-- Environment whose bundle directory exists but whose freshness marker file
is absent. -/
def envNoMarker : Env :=
  { envBase with marker := none }

/-- Environment whose freshness marker is newer than the server timestamp. -/
def envFresh : Env :=
  { envBase with marker := some 150 }

/-- Helper: the bundle refresh never performs the verdict PUT. -/
theorem putVerdict_not_mem_downloadActions (e : Env) (i : Int) (v : JudgeOutput) :
    PipelineAction.putVerdict i v ∉ downloadActions e := by
  cases hre : e.resourceFolderExists <;> cases hint : isProblemInteractive e <;>
    simp [downloadActions, hre, hint]

/-- C9: every returning call of `Session::refresh` changes only the
`access_token` and `expiry` fields; `base_url` and `refresh_token` are left
unchanged, and the refresh token carried by the response's token pair is
ignored, so the refresh token is never rotated. -/
theorem c9_refresh_frame (s : Session) (resp : JWTTokenPair)
    (decodeExp : String → Int) :
    (s.refreshWith resp decodeExp).base_url = s.base_url ∧
    (s.refreshWith resp decodeExp).refresh_token = s.refresh_token ∧
    (s.refreshWith resp decodeExp).access_token = resp.access_token ∧
    (s.refreshWith resp decodeExp).expiry = decodeExp resp.access_token ∧
    ∀ rt, s.refreshWith { resp with refresh_token := rt } decodeExp
        = s.refreshWith resp decodeExp :=
  ⟨rfl, rfl, rfl, rfl, fun _ => rfl⟩

/-- C3: reading the access token refreshes the session exactly when the
current time is within 5 minutes of the recorded expiry (`now + 5min >
expiry`): an expiry 600 seconds away triggers no refresh and the stored token
is returned, while an expiry 4 seconds away triggers a refresh and the fresh
token is returned. -/
theorem c3_refresh_window (s : Session) (now : Int) (resp : JWTTokenPair)
    (decodeExp : String → Int) (hne : resp.access_token ≠ s.access_token) :
    ((s.get_access_token now resp decodeExp).2 = resp.access_token ↔
      now + 5 * 60 > s.expiry) ∧
    ((s.get_access_token now resp decodeExp).2 = s.access_token ↔
      ¬ now + 5 * 60 > s.expiry) ∧
    (s.expiry = now + 600 →
      s.get_access_token now resp decodeExp = (s, s.access_token)) ∧
    (s.expiry = now + 4 →
      s.get_access_token now resp decodeExp
        = (s.refreshWith resp decodeExp, resp.access_token)) := by
  by_cases h : s.expiry < now + 300
  · have hgt : now + 5 * 60 > s.expiry := by omega
    have key : s.get_access_token now resp decodeExp
        = (s.refreshWith resp decodeExp, resp.access_token) := by
      simp [Session.get_access_token, h, Session.refreshWith]
    refine ⟨?_, ?_, ?_, ?_⟩
    · simp [key]; omega
    · rw [key]
      constructor
      · intro hc; exact absurd hc hne
      · intro hc; exact absurd hgt hc
    · intro he; exfalso; omega
    · intro _; exact key
  · have hng : ¬ now + 5 * 60 > s.expiry := by omega
    have key : s.get_access_token now resp decodeExp = (s, s.access_token) := by
      simp [Session.get_access_token, h]
    refine ⟨?_, ?_, ?_, ?_⟩
    · rw [key]
      constructor
      · intro hc; exact absurd hc.symm hne
      · intro hc; exact absurd hc hng
    · rw [key]; exact ⟨fun _ => hng, fun _ => rfl⟩
    · intro _; exact key
    · intro he; exfalso; omega

/-- Concrete decoder of the access token's embedded expiry claim, for the
witnesses. -/
def decodeExpSample : String → Int := fun _ => 1000

/-- Concrete session whose expiry is 600 seconds after the witness clock
instant 100. -/
def sessionFar : Session :=
  { base_url := ["api", ""], expiry := 700, access_token := "oldtok",
    refresh_token := "refreshtok" }

/-- Concrete session whose expiry is 4 seconds after the witness clock
instant 100. -/
def sessionNear : Session :=
  { base_url := ["api", ""], expiry := 104, access_token := "oldtok",
    refresh_token := "refreshtok" }

/-- Concrete refresh response for the witnesses. -/
def respSample : JWTTokenPair :=
  { access_token := "newtok", refresh_token := "newrefresh" }

/-- Witness for C3: at `now = 100`, the session expiring at 700 is returned
unrefreshed with its stored token, and the session expiring at 104 is
refreshed first and the fresh token is returned. -/
theorem c3_refresh_window_witness :
    sessionFar.get_access_token 100 respSample decodeExpSample
      = (sessionFar, "oldtok") ∧
    sessionNear.get_access_token 100 respSample decodeExpSample
      = (sessionNear.refreshWith respSample decodeExpSample, "newtok") :=
  ⟨(c3_refresh_window sessionFar 100 respSample decodeExpSample
      (by decide)).2.2.1 (by decide),
   (c3_refresh_window sessionNear 100 respSample decodeExpSample
      (by decide)).2.2.2 (by decide)⟩

/-- C7: URL resolution folds relative joins, so each fragment replaces the
last segment of the previous result: resolving `"submission/"` then `"123"`
keeps the `submission` segment (yielding `.../submission/123`), while
resolving `"submission"` then `"123"` drops it (yielding `.../123`), and the
two results differ. -/
theorem c7_resolve_relative_join (s : Session) :
    s.resolve ["submission/", "123"]
      = s.base_url.dropLast ++ ["submission", "123"] ∧
    s.resolve ["submission", "123"] = s.base_url.dropLast ++ ["123"] ∧
    s.resolve ["submission", "123"] ≠ s.resolve ["submission/", "123"] := by
  have h1 : slashSegments "submission/" = ["submission", ""] := rfl
  have h2 : slashSegments "submission" = ["submission"] := rfl
  have h3 : slashSegments "123" = ["123"] := rfl
  have e1 : s.resolve ["submission/", "123"]
      = s.base_url.dropLast ++ ["submission", "123"] := by
    show urlJoin (urlJoin s.base_url "submission/") "123" = _
    rw [urlJoin, urlJoin, h1, h3]
    rw [show s.base_url.dropLast ++ ["submission", ""]
        = (s.base_url.dropLast ++ ["submission"]) ++ [""] by simp]
    rw [List.dropLast_concat]
    simp
  have e2 : s.resolve ["submission", "123"]
      = s.base_url.dropLast ++ ["123"] := by
    show urlJoin (urlJoin s.base_url "submission") "123" = _
    rw [urlJoin, urlJoin, h2, h3]
    rw [show s.base_url.dropLast ++ ["submission"]
        = s.base_url.dropLast ++ ["submission"] from rfl]
    rw [List.dropLast_concat]
  refine ⟨e1, e2, ?_⟩
  rw [e1, e2]
  intro hcontra
  have hlen := congrArg List.length hcontra
  simp at hlen

/-- C1 counterexample: when the verdict artifact is absent, the embedded
verdict collection panics (`read_to_string(...).unwrap()`), it does not
return the synthetic `SYSTEM_ERROR` verdict. -/
theorem c1_counterexample :
    collectVerdict none = Except.error Err.panicMissingVerdict ∧
    collectVerdict none ≠ Except.ok systemErrorVerdict :=
  ⟨rfl, fun h => Except.noConfusion h⟩

/-- C1 amended: when the verdict artifact file does not exist after the
subprocess exits, the run aborts with the `unwrap` panic on
`read_to_string`, and no verdict of any kind is reported to the API. -/
theorem c1_missing_verdict_aborts (e : Env) (h : e.verdictFile = none) :
    (processSubmission e).2 ≠ none ∧
    ∀ i v, PipelineAction.putVerdict i v ∉ (processSubmission e).1 := by
  unfold processSubmission
  cases hsd : shouldDownload e with
  | error err => simp
  | ok download =>
    rw [h]
    refine ⟨by simp [collectVerdict], ?_⟩
    intro i v
    simp only [collectVerdict]
    simp
    exact fun _ => putVerdict_not_mem_downloadActions e i v

/-- Witness for C1's amended theorem at the concrete environment whose
verdict file is absent. -/
theorem c1_missing_verdict_aborts_witness :
    (processSubmission envNoVerdict).2 ≠ none ∧
    ∀ i v, PipelineAction.putVerdict i v ∉ (processSubmission envNoVerdict).1 :=
  c1_missing_verdict_aborts envNoVerdict rfl

/-- C2 counterexample: with the bundle directory present but the freshness
marker file absent, the staleness computation propagates a filesystem error
(the `?` on `read_to_string`), it does not decide to re-download. -/
theorem c2_counterexample :
    shouldDownload envNoMarker = Except.error Err.cacheReadFailed ∧
    shouldDownload envNoMarker ≠ Except.ok true :=
  ⟨rfl, fun h => Except.noConfusion h⟩

/-- C2 amended: the pipeline re-downloads exactly when the bundle directory
does not exist or the parsed marker is strictly earlier than the server's
`last_update`; when the directory exists but the marker file is missing the
run aborts with an error instead of re-downloading; and when the marker is at
least the server timestamp the bundle is judged fresh and the run performs no
resource fetch. -/
theorem c2_staleness (e : Env) :
    (shouldDownload e = Except.ok true ↔
      (e.resourceFolderExists = false ∨
        ∃ t, e.marker = some t ∧ t < e.problem.last_update)) ∧
    (e.resourceFolderExists = true → e.marker = none →
      shouldDownload e = Except.error Err.cacheReadFailed) ∧
    (∀ t, e.resourceFolderExists = true → e.marker = some t →
      e.problem.last_update ≤ t →
      shouldDownload e = Except.ok false ∧
      ∀ r p, PipelineAction.fetch r p ∉ (processSubmission e).1) := by
  cases hre : e.resourceFolderExists with
  | false =>
    refine ⟨by simp [shouldDownload, hre], by simp, by simp⟩
  | true =>
    cases hm : e.marker with
    | none =>
      refine ⟨by simp [shouldDownload, hre, hm], fun _ _ => by
        simp [shouldDownload, hre, hm], fun t _ ht => by simp [hm] at ht⟩
    | some td =>
      refine ⟨?_, by simp [hm], ?_⟩
      · simp [shouldDownload, hre, hm]
      · intro t _ ht hle
        cases ht
        have hfresh : shouldDownload e = Except.ok false := by
          simp [shouldDownload, hre, hm]; omega
        refine ⟨hfresh, ?_⟩
        intro r p
        unfold processSubmission
        rw [hfresh]
        cases hv : collectVerdict e.verdictFile <;> simp

/-- Witness for C2's amended theorem: in the concrete environment whose
marker (150) is newer than the server's `last_update` (100), the bundle is
judged fresh and the run performs no resource fetch. -/
theorem c2_staleness_witness :
    shouldDownload envFresh = Except.ok false ∧
    ∀ r p, PipelineAction.fetch r p ∉ (processSubmission envFresh).1 :=
  (c2_staleness envFresh).2.2 150 rfl rfl (by decide)

/-- C4 counterexample: the shared support header (`testlib.h`) is fetched to
its fixed path inside the temp directory, not to a path within the bundle
directory, refuting "each to its fixed path within the bundle". -/
theorem c4_counterexample :
    PipelineAction.fetch Resource.testlib (testlibPath envBase)
      ∈ downloadActions envBase ∧
    (resourceFolder envBase).isPrefixOf (testlibPath envBase) = false := by
  constructor <;> decide

/-- C4 amended: a stale refresh deletes the bundle directory recursively
exactly when it exists, recreates it, and writes the freshness marker with the
current time before any resource fetch; the fetches then happen in the order
metadata, checker, shared support header, interactor (present iff the problem
is interactive), testcases archive — metadata, checker and interactor to
fixed paths within the bundle, but the support header and the archive to
fixed paths in the temp directory. -/
theorem c4_refresh_order (e : Env) :
    (e.resourceFolderExists = true →
      [PipelineAction.removeDirAll (resourceFolder e),
       PipelineAction.createDirAll (resourceFolder e)] <+: downloadActions e) ∧
    (e.resourceFolderExists = false →
      [PipelineAction.createDirAll (resourceFolder e)] <+: downloadActions e) ∧
    (∃ pre post,
      downloadActions e
          = pre ++ PipelineAction.writeFile (markerPath e) (toString e.now) :: post ∧
      (∀ a ∈ pre, isFetch a = false) ∧
      fetchesOf post
        = [(Resource.metadata, metadataPath e), (Resource.checker, checkerPath e),
           (Resource.testlib, testlibPath e)]
          ++ (if isProblemInteractive e then
                [(Resource.interactor, interactorPath e)] else [])
          ++ [(Resource.testcases, testcasesZipPath e)]) := by
  cases hre : e.resourceFolderExists <;> cases hint : isProblemInteractive e <;>
    simp only [downloadActions, hre, hint, if_true, if_false, Bool.false_eq_true,
      ite_true, ite_false, List.nil_append, List.cons_append, List.append_nil] <;>
    refine ⟨?_, ?_, ?_⟩
  · intro hcontra; exact absurd hcontra (by simp)
  · intro _; exact ⟨_, rfl⟩
  · refine ⟨[PipelineAction.createDirAll (resourceFolder e)], _, rfl, ?_, ?_⟩
    · intro a ha
      simp at ha
      subst ha
      rfl
    · simp [fetchesOf, hint]
  · intro hcontra; exact absurd hcontra (by simp)
  · intro _; exact ⟨_, rfl⟩
  · refine ⟨[PipelineAction.createDirAll (resourceFolder e)], _, rfl, ?_, ?_⟩
    · intro a ha
      simp at ha
      subst ha
      rfl
    · simp [fetchesOf, hint]
  · intro _; exact ⟨_, rfl⟩
  · intro hcontra; exact absurd hcontra (by simp)
  · refine ⟨[PipelineAction.removeDirAll (resourceFolder e),
             PipelineAction.createDirAll (resourceFolder e)], _, rfl, ?_, ?_⟩
    · intro a ha
      simp at ha
      rcases ha with ha | ha <;> subst ha <;> rfl
    · simp [fetchesOf, hint]
  · intro _; exact ⟨_, rfl⟩
  · intro hcontra; exact absurd hcontra (by simp)
  · refine ⟨[PipelineAction.removeDirAll (resourceFolder e),
             PipelineAction.createDirAll (resourceFolder e)], _, rfl, ?_, ?_⟩
    · intro a ha
      simp at ha
      rcases ha with ha | ha <;> subst ha <;> rfl
    · simp [fetchesOf, hint]

/-- Witness for C4's amended theorem: in the concrete environment the bundle
directory exists, so the refresh starts by deleting and recreating it. -/
theorem c4_refresh_order_witness :
    [PipelineAction.removeDirAll (resourceFolder envBase),
     PipelineAction.createDirAll (resourceFolder envBase)]
      <+: downloadActions envBase :=
  (c4_refresh_order envBase).1 rfl

/-- Helper: every component surviving sanitization is a normal component —
not `..`, not `.`, not empty. -/
theorem sanitizeFilename_normal (name : String) (c : String)
    (hc : c ∈ sanitizeFilename name) : c ≠ ".." ∧ c ≠ "." ∧ c ≠ "" := by
  unfold sanitizeFilename at hc
  simp only [List.mem_filter, Bool.and_eq_true, bne_iff_ne, ne_eq] at hc
  exact ⟨hc.2.2, hc.2.1.2, hc.2.1.1⟩

/-- Helper: folding the path-resolution step over normal components appends
them one by one. -/
theorem foldl_resolveStep_normal (cs : List String)
    (h : ∀ c ∈ cs, c ≠ ".." ∧ c ≠ "." ∧ c ≠ "") (acc : List String) :
    cs.foldl resolveStep acc = acc ++ cs := by
  induction cs generalizing acc with
  | nil => simp
  | cons c rest ih =>
    have hc := h c (by simp)
    have hstep : resolveStep acc c = acc ++ [c] := by
      rw [resolveStep, if_neg hc.1, if_neg hc.2.1, if_neg hc.2.2]
    rw [List.foldl_cons, hstep, ih (fun x hx => h x (by simp [hx]))]
    simp

/-- C5: for every archive entry name — including adversarial names with `..`
components, absolute paths or NUL bytes — every path `unzip` creates for the
entry (the target and each intermediate directory) resolves to a path inside
the extraction directory, and the bundle refresh deletes the downloaded
archive right after extracting it. -/
theorem c5_unzip_contained (folder : List String) (name : String)
    (p : List String) (e : Env)
    (hp : p ∈ entryWritePaths folder name) :
    resolvePath folder <+: resolvePath p ∧
    ∃ pre, downloadActions e
        = pre ++ [PipelineAction.unzipTo (testcasesZipPath e) (testcasesPath e),
                  PipelineAction.removeFile (testcasesZipPath e)] := by
  constructor
  · simp only [entryWritePaths, List.mem_map, List.mem_range] at hp
    obtain ⟨k, _, hpe⟩ := hp
    subst hpe
    have htake : ∀ c ∈ (sanitizeFilename name).take k,
        c ≠ ".." ∧ c ≠ "." ∧ c ≠ "" :=
      fun c hc => sanitizeFilename_normal name c (List.mem_of_mem_take hc)
    simp only [resolvePath]
    rw [List.foldl_append,
      foldl_resolveStep_normal _ htake (folder.foldl resolveStep [])]
    exact List.prefix_append _ _
  · refine ⟨(if e.resourceFolderExists
          then [PipelineAction.removeDirAll (resourceFolder e)] else [])
        ++ [PipelineAction.createDirAll (resourceFolder e),
            PipelineAction.writeFile (markerPath e) (toString e.now),
            PipelineAction.fetch Resource.metadata (metadataPath e),
            PipelineAction.fetch Resource.checker (checkerPath e),
            PipelineAction.fetch Resource.testlib (testlibPath e)]
        ++ (if isProblemInteractive e
            then [PipelineAction.fetch Resource.interactor (interactorPath e)]
            else [])
        ++ [PipelineAction.fetch Resource.testcases (testcasesZipPath e)], ?_⟩
    simp [downloadActions]

/-- Concrete extraction directory for the C5 witness. -/
def folderSample : List String := ["res", "sum-two", "testcases"]

/-- Witness for C5 at the adversarial entry name `"../../../etc/passwd"`:
sanitization keeps only `etc/passwd`, so the entry's target stays inside the
extraction directory, and in the concrete environment the archive is removed
right after extraction. -/
theorem c5_unzip_contained_witness :
    resolvePath folderSample
      <+: resolvePath (folderSample ++ ["etc", "passwd"]) ∧
    ∃ pre, downloadActions envBase
        = pre ++ [PipelineAction.unzipTo (testcasesZipPath envBase)
                    (testcasesPath envBase),
                  PipelineAction.removeFile (testcasesZipPath envBase)] :=
  c5_unzip_contained folderSample "../../../etc/passwd"
    (folderSample ++ ["etc", "passwd"]) envBase (by decide)

/-- C6 counterexample: in the concrete environment a progress socket is
configured and a checker language is configured, yet the assembled argument
vector contains neither the channel address nor the checker's language
identifier. -/
theorem c6_counterexample :
    envBase.opts.socket = some "tcp://127.0.0.1:5555" ∧
    "tcp://127.0.0.1:5555" ∉ judgeArgs envBase ∧
    envBase.opts.checker_language = "checkerlang" ∧
    "checkerlang" ∉ judgeArgs envBase := by
  refine ⟨rfl, ?_, rfl, ?_⟩ <;> decide

/-- C6 amended: the grading invocation is the fixed 21-element vector of
metadata path, language, source path, checker path, testcases directory,
support header path, sandbox count, language-definition path, verdict path,
verdict format token and verbosity flags, with `--interactor` and the
interactor path appended exactly when the problem is interactive; the
configured checker language and progress socket are never passed — the vector
does not depend on them. -/
theorem c6_invocation (e : Env) (cl : String) (sock : Option String) :
    judgeArgs { e with opts := { e.opts with
        checker_language := cl, socket := sock } } = judgeArgs e ∧
    (isProblemInteractive e = true →
      judgeArgs e = judgeArgsBase e ++ ["--interactor", pathStr (interactorPath e)]) ∧
    (isProblemInteractive e = false → judgeArgs e = judgeArgsBase e) ∧
    (judgeArgs e).length = (if isProblemInteractive e then 23 else 21) := by
  refine ⟨rfl, ?_, ?_, ?_⟩
  · intro hint; simp [judgeArgs, hint]
  · intro hint; simp [judgeArgs, hint]
  · cases hint : isProblemInteractive e <;> simp [judgeArgs, judgeArgsBase, hint]

/-- Witness for C6's amended theorem: changing the checker language and
removing the socket leaves the concrete invocation unchanged, and the
concrete (non-interactive) invocation is exactly the base vector. -/
theorem c6_invocation_witness :
    judgeArgs { envBase with opts := { envBase.opts with
        checker_language := "othercl", socket := none } } = judgeArgs envBase ∧
    judgeArgs envBase = judgeArgsBase envBase :=
  ⟨(c6_invocation envBase "othercl" none).1,
   (c6_invocation envBase "othercl" none).2.2.1 (by decide)⟩

/-- C10: a problem is treated as interactive exactly when its fetched type
string equals `"interactive"`; for any other type value the run fetches no
interactor and appends no `--interactor` argument, and unrecognized type
strings are not validated — any two non-interactive type values produce
identical runs. -/
theorem c10_interactive_type (e : Env) :
    (isProblemInteractive e = true ↔ e.problem.problem_type = "interactive") ∧
    (e.problem.problem_type ≠ "interactive" →
      (∀ p, PipelineAction.fetch Resource.interactor p ∉ (processSubmission e).1) ∧
      judgeArgs e = judgeArgsBase e) ∧
    (∀ t₁ t₂, t₁ ≠ "interactive" → t₂ ≠ "interactive" →
      processSubmission (setProblemType e t₁)
        = processSubmission (setProblemType e t₂)) := by
  refine ⟨by simp [isProblemInteractive], ?_, ?_⟩
  · intro hty
    have hint : isProblemInteractive e = false := by
      simp [isProblemInteractive, hty]
    refine ⟨?_, by simp [judgeArgs, hint]⟩
    intro p
    have hdl : PipelineAction.fetch Resource.interactor p ∉ downloadActions e := by
      cases hre : e.resourceFolderExists <;>
        simp [downloadActions, hre, hint]
    unfold processSubmission
    cases hsd : shouldDownload e with
    | error err => simp
    | ok download =>
      cases hv : collectVerdict e.verdictFile with
      | error err =>
        simp only []
        cases download <;> simp [hdl]
      | ok v =>
        simp only []
        cases download <;> simp [hdl]
  · intro t₁ t₂ h₁ h₂
    have hb₁ : (t₁ == "interactive") = false := by
      simpa using h₁
    have hb₂ : (t₂ == "interactive") = false := by
      simpa using h₂
    simp [processSubmission, shouldDownload, collectVerdict, downloadActions,
      judgeArgs, judgeArgsBase, isProblemInteractive, setProblemType,
      resourceFolder, metadataPath, checkerPath, interactorPath, testcasesPath,
      testcasesZipPath, testlibPath, sourcePath, verdictPath, markerPath,
      hb₁, hb₂]

/-- Witness for C10 at the misspelled type string `"intractive"`: no
interactor fetch appears in the run, no `--interactor` is appended, and the
run coincides with the run for type `"normal"`. -/
theorem c10_interactive_type_witness :
    (∀ p, PipelineAction.fetch Resource.interactor p
        ∉ (processSubmission (setProblemType envBase "intractive")).1) ∧
    judgeArgs (setProblemType envBase "intractive")
      = judgeArgsBase (setProblemType envBase "intractive") ∧
    processSubmission (setProblemType envBase "intractive")
      = processSubmission (setProblemType envBase "normal") :=
  ⟨((c10_interactive_type (setProblemType envBase "intractive")).2.1
      (by decide)).1,
   ((c10_interactive_type (setProblemType envBase "intractive")).2.1
      (by decide)).2,
   (c10_interactive_type envBase).2.2 "intractive" "normal"
      (by decide) (by decide)⟩

/-- C8 (relay modelled from the spec, the relay being absent from the sources
under `src/`): once the relay observes the terminating `submission` event its
trace ends — nothing, in particular no progress send, follows it — and in the
pipeline's phase order the relay join strictly precedes the final verdict
report. -/
theorem c8_relay_terminates (total : Nat) (evts : List (Int × ProgressEvent))
    (st : RelayState) (pre post : List RelayStep)
    (h : relayRun total evts st
        = pre ++ RelayStep.observe ProgressEvent.submission :: post) :
    post = [] ∧
    relayPipelinePhases.indexOf RelayPipelinePhase.joinRelay
      < relayPipelinePhases.indexOf RelayPipelinePhase.reportVerdict := by
  refine ⟨?_, by decide⟩
  induction evts generalizing st pre post with
  | nil => simp [relayRun] at h
  | cons ev rest ih =>
    obtain ⟨now, pe⟩ := ev
    cases pe with
    | submission =>
      rw [relayRun] at h
      cases pre with
      | nil =>
        simp only [List.nil_append, List.cons.injEq] at h
        exact h.2.symm
      | cons a pre' =>
        simp only [List.cons_append] at h
        have htail := (List.cons.injEq _ _ _ _ ▸ h).2
        simp at htail
    | testcase =>
      rw [relayRun] at h
      by_cases hs : relayShouldSend st now (st.count + 1) total
      · rw [if_pos hs] at h
        cases pre with
        | nil => simp at h
        | cons a pre' =>
          simp only [List.cons_append, List.cons.injEq] at h
          cases pre' with
          | nil => simp at h
          | cons b pre'' =>
            simp only [List.cons_append, List.cons.injEq] at h
            exact ih _ _ _ h.2.2
      · rw [if_neg hs] at h
        cases pre with
        | nil => simp at h
        | cons a pre' =>
          simp only [List.cons_append, List.cons.injEq] at h
          exact ih _ _ _ h.2

/-- Witness for C8: a concrete event stream whose second inbound event would
be a testcase after the terminating event — the relay's trace stops at the
`submission` observation with nothing after it. -/
theorem c8_relay_terminates_witness :
    ([] : List RelayStep) = [] ∧
    relayPipelinePhases.indexOf RelayPipelinePhase.joinRelay
      < relayPipelinePhases.indexOf RelayPipelinePhase.reportVerdict :=
  c8_relay_terminates 10
    [(0, ProgressEvent.submission), (1, ProgressEvent.testcase)]
    { count := 0, lastSent := none } [] [] (by decide)

end JudgeController
